import Mathlib

/-!
Shallow embedding of the in-memory session/room/invite coordinator of
`src/server.js` (a Socket.IO chat relay).  The transport layer (HTTP, CORS,
socket bookkeeping) is out of scope; each socket event handler is embedded as a
pure function from the coordinator state and the event payload to the new
state, the acknowledgment value, and the list of outbound broadcast events.
JavaScript `Map`s are embedded as association lists, `Set`s as duplicate-free
lists in insertion order, and JS string truthiness (`!x`) as emptiness tests.
-/

namespace Chat

/-- Lookup in a JS `Map` embedded as an association list (first match wins;
maps built by `mput`/`mdel` have unique keys). -/
def mfind {α : Type} (m : List (String × α)) (k : String) : Option α :=
  match m with
  | [] => none
  | (k', v) :: rest => if k' = k then some v else mfind rest k

/-- `Map.set`: replace the binding for `k` if present, else append. -/
def mput {α : Type} (m : List (String × α)) (k : String) (v : α) :
    List (String × α) :=
  match m with
  | [] => [(k, v)]
  | (k', v') :: rest => if k' = k then (k, v) :: rest else (k', v') :: mput rest k v

/-- `Map.delete`: remove every binding for `k` (at most one in maps built by
`mput` from the empty map). -/
def mdel {α : Type} (m : List (String × α)) (k : String) : List (String × α) :=
  match m with
  | [] => []
  | (k', v') :: rest => if k' = k then mdel rest k else (k', v') :: mdel rest k

/-- `Set.add`: JS sets keep insertion order and ignore re-insertion. -/
def sadd {α : Type} [DecidableEq α] (s : List α) (x : α) : List α :=
  if x ∈ s then s else s ++ [x]

/-- `Set.delete`. -/
def sdel {α : Type} [DecidableEq α] (s : List α) (x : α) : List α :=
  s.filter (fun y => y ≠ x)

/-- `String.prototype.slice(0, n)`: the first `n` units of the string. -/
def jsSlice (s : String) (n : Nat) : String := ⟨s.data.take n⟩

/-- `String.prototype.trim()`: strip leading and trailing whitespace.
(Embedded as a structural recursion over the character list so that it
evaluates inside the kernel.) -/
def jsTrim (s : String) : String :=
  ⟨(((s.data.dropWhile Char.isWhitespace).reverse).dropWhile Char.isWhitespace).reverse⟩

/-- `String(raw).trim().slice(0, 64)` — the normalisation applied to identity
and room keys at lines 48, 81, 102, 130 of `server.js`. -/
def normId (s : String) : String := jsSlice (jsTrim s) 64

/-- JS truthiness of an optional string field (`undefined` and `""` are the
falsy cases). -/
def truthyOpt : Option String → Bool
  | none => false
  | some s => s ≠ ""

/-- `String(x || "")`: coerce an optional string, defaulting falsy to `""`. -/
def strOr : Option String → String
  | none => ""
  | some s => s

/-- A room record: `{ members: Set<id>, pass: string|null }` (line 27). -/
structure RoomData where
  members : List String
  pass : Option String
deriving DecidableEq, Repr

/-- An invite record: `{ roomId, fromId, toId, createdAt }` (line 29). -/
structure Invite where
  roomId : String
  fromId : String
  toId : String
  createdAt : Nat
deriving DecidableEq, Repr

/-- A chat message as built by the `room:send` handler (lines 250-256). -/
structure Msg where
  id : String
  roomId : String
  fromId : String
  text : String
  atTime : Nat
deriving DecidableEq, Repr

/-- The whole mutable server state: `online`, `rooms`, `invites`, `userRooms`
(lines 24-32), plus the set of currently connected socket ids (standing in for
`io.sockets.sockets` entries with `connected = true`). -/
structure ServerState where
  online : List (String × Nat)
  rooms : List (String × RoomData)
  invites : List (String × Invite)
  userRooms : List (String × List String)
  live : List Nat
deriving DecidableEq, Repr

/-- The empty state the process starts with. -/
def init : ServerState := ⟨[], [], [], [], []⟩

/-- Acknowledgment values passed to the `ack` callback of each handler. -/
inductive Ack where
  | err (code : String)
  | okExists (ex locked : Bool)
  | okRoom (roomId : String) (members : List String) (locked : Bool)
  | okInvite (inviteId : String)
  | okUnit
  | okMsg (id : String)
deriving DecidableEq, Repr

/-- Outbound (non-acked) events emitted by the handlers.  A `system` or
`message` event is a broadcast addressed to a room's transport-level broadcast
group; `incoming` and `rejected` are targeted at one socket. -/
inductive OutEvent where
  | system (roomId text : String) (atTime : Nat)
  | incoming (toSid : Nat) (inviteId roomId fromIdent : String) (atTime : Nat)
  | rejected (toSid : Nat) (inviteId byId : String) (atTime : Nat)
  | message (roomId : String) (m : Msg)
deriving DecidableEq, Repr

/-- Result of one event handler: new state, ack value, outbound events. -/
structure Res where
  state : ServerState
  ack : Ack
  events : List OutEvent
deriving DecidableEq, Repr

/-- `room:exists` handler (lines 72-76): pure lookup; note the key is trimmed
but not length-capped here. -/
def roomExists (st : ServerState) (roomId : String) : Res :=
  if roomId = "" then ⟨st, .err "roomId required", []⟩
  else
    match mfind st.rooms (jsTrim roomId) with
    | none => ⟨st, .okExists false false, []⟩
    | some r => ⟨st, .okExists true (truthyOpt r.pass), []⟩

/-- `room:create` handler (lines 79-97).  A falsy `password` (missing or the
empty string) stores `pass = null`; the creator becomes the sole member and is
tracked in `userRooms`. -/
def roomCreate (st : ServerState) (me roomId0 : String) (password : Option String)
    (now : Nat) : Res :=
  if roomId0 = "" then ⟨st, .err "roomId required", []⟩
  else
    let roomId := normId roomId0
    match mfind st.rooms roomId with
    | some _ => ⟨st, .err "ROOM_EXISTS", []⟩
    | none =>
      let pass : Option String := if truthyOpt password then some (strOr password) else none
      let members : List String := [me]
      let rooms' := mput st.rooms roomId ⟨members, pass⟩
      let ur := (mfind st.userRooms me).getD []
      let userRooms' := mput st.userRooms me (sadd ur roomId)
      ⟨{ st with rooms := rooms', userRooms := userRooms' },
        .okRoom roomId members (truthyOpt pass),
        [.system roomId (me ++ " đã tạo phòng" ++ (if truthyOpt pass then " (có mật khẩu)" else "")) now]⟩

/-- `room:join` handler (lines 100-124).  Checks existence, then membership,
then (only when the room has a truthy `pass`) exact equality of
`String(password || "")` against it.  NOTE: unlike create/accept, this handler
does not add the room to the joiner's `userRooms` entry. -/
def roomJoin (st : ServerState) (me roomId0 : String) (password : Option String)
    (now : Nat) : Res :=
  if roomId0 = "" then ⟨st, .err "roomId required", []⟩
  else
    let roomId := normId roomId0
    match mfind st.rooms roomId with
    | none => ⟨st, .err "ROOM_NOT_FOUND", []⟩
    | some r =>
      if me ∈ r.members then ⟨st, .err "ALREADY_IN_ROOM", []⟩
      else if truthyOpt r.pass ∧ strOr password ≠ r.pass.getD "" then
        ⟨st, .err "WRONG_PASSWORD", []⟩
      else
        let members' := sadd r.members me
        ⟨{ st with rooms := mput st.rooms roomId { r with members := members' } },
          .okRoom roomId members' (truthyOpt r.pass),
          [.system roomId (me ++ " đã tham gia") now]⟩

/-- `room:invite` handler (lines 127-161).  Check order: fields present, room
exists, proposer is a member, peer not already a member, peer online.  The
generated invite id is passed in as `inviteId`. -/
def roomInvite (st : ServerState) (me roomId0 peerId0 inviteId : String)
    (now : Nat) : Res :=
  if roomId0 = "" ∨ peerId0 = "" then ⟨st, .err "roomId,peerId required", []⟩
  else
    let roomId := normId roomId0
    let peerId := jsTrim peerId0
    match mfind st.rooms roomId with
    | none => ⟨st, .err "ROOM_NOT_FOUND", []⟩
    | some r =>
      if me ∉ r.members then ⟨st, .err "Bạn chưa ở phòng", []⟩
      else if peerId ∈ r.members then ⟨st, .err "PEER_ALREADY_IN_ROOM", []⟩
      else
        match mfind st.online peerId with
        | none => ⟨st, .err "Peer offline/không tồn tại", []⟩
        | some peerSid =>
          ⟨{ st with invites := mput st.invites inviteId ⟨roomId, me, peerId, now⟩ },
            .okInvite inviteId,
            [.incoming peerSid inviteId roomId me now]⟩

/-- `room:accept` handler (lines 163-203).  The invite is deleted on the
room-vanished and party-offline error paths and on success; it is kept on the
INVITE_NOT_FOUND and UNAUTHORIZED paths.  On success both parties are added to
the room's members and both are tracked in `userRooms`. -/
def roomAccept (st : ServerState) (me inviteId : String) (now : Nat) : Res :=
  match mfind st.invites inviteId with
  | none => ⟨st, .err "INVITE_NOT_FOUND", []⟩
  | some inv =>
    if inv.toId ≠ me then ⟨st, .err "UNAUTHORIZED", []⟩
    else
      match mfind st.rooms inv.roomId with
      | none => ⟨{ st with invites := mdel st.invites inviteId }, .err "ROOM_NOT_FOUND", []⟩
      | some r =>
        match mfind st.online inv.fromId, mfind st.online inv.toId with
        | some _, some _ =>
          let members' := sadd (sadd r.members inv.fromId) inv.toId
          let rooms' := mput st.rooms inv.roomId { r with members := members' }
          let ur1 := mput st.userRooms inv.fromId
            (sadd ((mfind st.userRooms inv.fromId).getD []) inv.roomId)
          let ur2 := mput ur1 inv.toId (sadd ((mfind ur1 inv.toId).getD []) inv.roomId)
          ⟨{ st with rooms := rooms', userRooms := ur2, invites := mdel st.invites inviteId },
            .okRoom inv.roomId members' (truthyOpt r.pass),
            [.system inv.roomId (me ++ " đã tham gia (theo lời mời)") now]⟩
        | _, _ =>
          ⟨{ st with invites := mdel st.invites inviteId },
            .err "Một trong hai bên đã offline", []⟩

/-- `room:reject` handler (lines 205-218): always acks `ok`; only when the
invite exists and the caller is its target does it notify the proposer (if
online) and delete the invite. -/
def roomReject (st : ServerState) (me inviteId : String) (now : Nat) : Res :=
  match mfind st.invites inviteId with
  | none => ⟨st, .okUnit, []⟩
  | some inv =>
    if inv.toId = me then
      ⟨{ st with invites := mdel st.invites inviteId }, .okUnit,
        match mfind st.online inv.fromId with
        | some fromSid => [.rejected fromSid inviteId me now]
        | none => []⟩
    else ⟨st, .okUnit, []⟩

/-- `room:leave` handler (lines 221-241): always acks `ok`; the room key is
used raw (no trim/cap).  When the caller was a member it is removed, its
`userRooms` entry updated, a broadcast emitted, and the room deleted if now
empty. -/
def roomLeave (st : ServerState) (me roomId : String) (now : Nat) : Res :=
  if roomId = "" then ⟨st, .err "roomId required", []⟩
  else
    match mfind st.rooms roomId with
    | none => ⟨st, .okUnit, []⟩
    | some r =>
      if me ∈ r.members then
        let members' := sdel r.members me
        let userRooms' := mput st.userRooms me (sdel ((mfind st.userRooms me).getD []) roomId)
        let rooms' :=
          if members'.length = 0 then mdel st.rooms roomId
          else mput st.rooms roomId { r with members := members' }
        ⟨{ st with rooms := rooms', userRooms := userRooms' }, .okUnit,
          [.system roomId (me ++ " đã rời phòng") now]⟩
      else ⟨st, .okUnit, []⟩

/-- `room:send` handler (lines 244-259): requires truthy `roomId` and `text`
and current membership (raw room key); the broadcast message's text is
`String(text).slice(0, 4000)`.  The generated message id is passed in. -/
def roomSend (st : ServerState) (me roomId text msgId : String) (now : Nat) : Res :=
  if roomId = "" ∨ text = "" then ⟨st, .err "roomId,text required", []⟩
  else
    match mfind st.rooms roomId with
    | none => ⟨st, .err "Bạn không ở trong phòng", []⟩
    | some r =>
      if me ∉ r.members then ⟨st, .err "Bạn không ở trong phòng", []⟩
      else
        let msg : Msg := ⟨msgId, roomId, me, jsSlice text 4000, now⟩
        ⟨st, .okMsg msgId, [.message roomId msg]⟩

/-- Outcome of a connection attempt: handshake refused by the middleware
(`next(new Error(...))`), forcibly closed by the anti-race check
(`user:error` then `socket.disconnect(true)`), or registered. -/
inductive RegResult where
  | refused (error : String)
  | forcedClose (error : String)
  | registered (id : String)
deriving DecidableEq, Repr

/-- The unique-id middleware plus the start of the connection handler
(lines 45-69): reject a missing id; reject when the id is held by a still
connected socket; otherwise the socket connects, the anti-race check fires if
a different socket id is still recorded, else `online` is updated and a
`user:registered` event is emitted. -/
def register (st : ServerState) (raw : String) (sid : Nat) : ServerState × RegResult :=
  if raw = "" then (st, .refused "Missing id")
  else
    let id := normId raw
    let liveExisting : Bool :=
      match mfind st.online id with
      | some sid' => decide (sid' ∈ st.live)
      | none => false
    if liveExisting then (st, .refused "ID đang được sử dụng")
    else
      let st1 := { st with live := sadd st.live sid }
      match mfind st1.online id with
      | some prev =>
        if prev ≠ sid then
          ({ st1 with live := sdel st1.live sid }, .forcedClose "ID đang được sử dụng")
        else (st1, .registered id)
      | none => ({ st1 with online := mput st1.online id sid }, .registered id)

/-- The per-room body of the disconnect loop (lines 266-276), folded over the
disconnecting user's `userRooms` entry: remove the user from each listed room
that still exists, broadcast a "left (disconnected)" notice, and delete the
room when it becomes empty. -/
def disconnectRooms (rooms : List (String × RoomData)) (me : String)
    (urs : List String) (now : Nat) : List (String × RoomData) × List OutEvent :=
  match urs with
  | [] => (rooms, [])
  | roomId :: rest =>
    match mfind rooms roomId with
    | none => disconnectRooms rooms me rest now
    | some r =>
      let members' := sdel r.members me
      let rooms' :=
        if members'.length = 0 then mdel rooms roomId
        else mput rooms roomId { r with members := members' }
      let res := disconnectRooms rooms' me rest now
      (res.1, .system roomId (me ++ " đã rời phòng (mất kết nối)") now :: res.2)

/-- The `disconnect` handler (lines 262-283): conditionally release the
`online` slot (only if it still points at this socket), cascade through the
rooms recorded in `userRooms`, drop the user's `userRooms` entry, and silently
discard every invite where the user is proposer or target. -/
def disconnect (st : ServerState) (me : String) (sid : Nat) (now : Nat) :
    ServerState × List OutEvent :=
  let online' := if mfind st.online me = some sid then mdel st.online me else st.online
  let urs := (mfind st.userRooms me).getD []
  let dr := disconnectRooms st.rooms me urs now
  { online := online'
    rooms := dr.1
    invites := st.invites.filter (fun p => decide (p.2.fromId ≠ me ∧ p.2.toId ≠ me))
    userRooms := mdel st.userRooms me
    live := sdel st.live sid }
  |> fun st' => (st', dr.2)

/-- One inbound event together with its payload and generated values (invite
and message ids, timestamp). -/
inductive Action where
  | aExists (roomId : String)
  | aCreate (me roomId : String) (password : Option String) (now : Nat)
  | aJoin (me roomId : String) (password : Option String) (now : Nat)
  | aInvite (me roomId peerId inviteId : String) (now : Nat)
  | aAccept (me inviteId : String) (now : Nat)
  | aReject (me inviteId : String) (now : Nat)
  | aLeave (me roomId : String) (now : Nat)
  | aSend (me roomId text msgId : String) (now : Nat)
  | aRegister (raw : String) (sid : Nat)
  | aDisconnect (me : String) (sid : Nat) (now : Nat)
deriving DecidableEq, Repr

/-- The state component of handling one inbound event. -/
def stepState (st : ServerState) : Action → ServerState
  | .aExists roomId => (roomExists st roomId).state
  | .aCreate me roomId password now => (roomCreate st me roomId password now).state
  | .aJoin me roomId password now => (roomJoin st me roomId password now).state
  | .aInvite me roomId peerId inviteId now => (roomInvite st me roomId peerId inviteId now).state
  | .aAccept me inviteId now => (roomAccept st me inviteId now).state
  | .aReject me inviteId now => (roomReject st me inviteId now).state
  | .aLeave me roomId now => (roomLeave st me roomId now).state
  | .aSend me roomId text msgId now => (roomSend st me roomId text msgId now).state
  | .aRegister raw sid => (register st raw sid).1
  | .aDisconnect me sid now => (disconnect st me sid now).1

/-- Run a sequence of inbound events from a state. -/
def runActs (st : ServerState) : List Action → ServerState
  | [] => st
  | a :: rest => runActs (stepState st a) rest

/-- A state is reachable when some event sequence produces it from the empty
initial state.  (Events here over-approximate the real transport: any caller
string may appear, so invariants proved over `Reachable` hold a fortiori of
the real system.) -/
def Reachable (st : ServerState) : Prop := ∃ as : List Action, runActs init as = st

/-- Rooms-are-nonempty invariant: every stored room has at least one member. -/
def RoomsNonempty (st : ServerState) : Prop :=
  ∀ rid r, mfind st.rooms rid = some r → r.members ≠ []

/-- State after: alice and bob connect, alice creates "r1" (no password), bob
joins "r1" through `room:join`. -/
def stJoined : ServerState := runActs init
  [Action.aRegister "alice" 1, Action.aRegister "bob" 2,
   Action.aCreate "alice" "r1" none 0, Action.aJoin "bob" "r1" none 1]

/-- State after: alice and bob connect, alice creates "r1", alice invites bob
(invite token "i1"). -/
def stInvited : ServerState := runActs init
  [Action.aRegister "alice" 1, Action.aRegister "bob" 2,
   Action.aCreate "alice" "r1" none 0, Action.aInvite "alice" "r1" "bob" "i1" 1]

/-- State after `stInvited` where bob has accepted invite "i1" (the token is
consumed). -/
def stAccepted : ServerState := stepState stInvited (Action.aAccept "bob" "i1" 2)

/-- State after: alice, bob, carol connect, alice creates "r1", bob joins via
`room:join`, bob invites carol (token "i9").  Used to observe bob's
disconnect. -/
def stPreDisc : ServerState := runActs init
  [Action.aRegister "alice" 1, Action.aRegister "bob" 2, Action.aRegister "carol" 3,
   Action.aCreate "alice" "r1" none 0, Action.aJoin "bob" "r1" none 1,
   Action.aInvite "bob" "r1" "carol" "i9" 2]

/-- State after only alice has connected. -/
def stAlice : ServerState := runActs init [Action.aRegister "alice" 1]

/-- State after: alice and bob connect and alice creates unlocked room "r1". -/
def stUnlocked : ServerState := runActs init
  [Action.aRegister "alice" 1, Action.aRegister "bob" 2,
   Action.aCreate "alice" "r1" none 0]

/-- State after: alice and bob connect and alice creates room "r2" locked
with password "secret". -/
def stLocked : ServerState := runActs init
  [Action.aRegister "alice" 1, Action.aRegister "bob" 2,
   Action.aCreate "alice" "r2" (some "secret") 0]

/-- A message text of 4001 identical characters (exceeds the 4000 cap). -/
def bigText : String := ⟨List.replicate 4001 'a'⟩

/-- Lookup after `mput`: the stored key returns the new value, others are
unchanged. -/
theorem mfind_mput {α : Type} (m : List (String × α)) (k k' : String) (v : α) :
    mfind (mput m k v) k' = if k = k' then some v else mfind m k' := by
  induction m with
  | nil => simp only [mput, mfind]
  | cons hd tl ih =>
    obtain ⟨k₀, v₀⟩ := hd
    by_cases h1 : k₀ = k
    · subst h1
      by_cases h2 : k₀ = k'
      · subst h2; simp [mput, mfind]
      · simp [mput, mfind, h2]
    · by_cases h2 : k₀ = k'
      · subst h2
        have h3 : ¬ (k = k₀) := fun h => h1 h.symm
        simp [mput, mfind, h1, h3, ih]
      · simp [mput, mfind, h1, h2, ih]

/-- Lookup after `mdel`: the deleted key is gone, others are unchanged. -/
theorem mfind_mdel {α : Type} (m : List (String × α)) (k k' : String) :
    mfind (mdel m k) k' = if k = k' then none else mfind m k' := by
  induction m with
  | nil => simp [mdel, mfind]
  | cons hd tl ih =>
    obtain ⟨k₀, v₀⟩ := hd
    by_cases h1 : k₀ = k
    · subst h1
      by_cases h2 : k₀ = k'
      · subst h2; simp [mdel, mfind, ih]
      · simp [mdel, mfind, h2, ih]
    · by_cases h2 : k₀ = k'
      · subst h2
        have h3 : ¬ (k = k₀) := fun h => h1 h.symm
        simp [mdel, mfind, h1, h3]
      · simp [mdel, mfind, h1, h2, ih]

/-- Adding to a set never yields the empty set. -/
theorem sadd_ne_nil {α : Type} [DecidableEq α] (s : List α) (x : α) :
    sadd s x ≠ [] := by
  unfold sadd
  split
  · exact List.ne_nil_of_mem (by assumption)
  · simp

/-- Membership in `sadd`. -/
theorem mem_sadd {α : Type} [DecidableEq α] (s : List α) (x y : α) :
    y ∈ sadd s x ↔ y ∈ s ∨ y = x := by
  unfold sadd
  split
  · constructor
    · exact fun h => Or.inl h
    · rintro (h | rfl)
      · exact h
      · assumption
  · simp

/-- The disconnect cascade preserves the rooms-are-nonempty invariant: each
iteration either leaves a room with its remaining members or deletes it when
it became empty. -/
theorem roomsNonempty_disconnectRooms (me : String) (now : Nat) :
    ∀ (urs : List String) (rooms : List (String × RoomData)),
      (∀ rid r, mfind rooms rid = some r → r.members ≠ []) →
      ∀ rid r, mfind (disconnectRooms rooms me urs now).1 rid = some r →
        r.members ≠ [] := by
  intro urs
  induction urs with
  | nil =>
    intro rooms h rid r hr
    simp only [disconnectRooms] at hr
    exact h rid r hr
  | cons roomId rest ih =>
    intro rooms h rid r hr
    simp only [disconnectRooms] at hr
    split at hr
    · exact ih rooms h rid r hr
    · rename_i r₀ heq
      refine ih _ ?_ rid r hr
      intro rid' r' hr'
      split at hr'
      · rw [mfind_mdel] at hr'
        split at hr'
        · cases hr'
        · exact h rid' r' hr'
      · rename_i hlen
        rw [mfind_mput] at hr'
        split at hr'
        · cases hr'
          intro hnil
          exact hlen (by rw [List.length_eq_zero]; exact hnil)
        · exact h rid' r' hr'

/-- Every single event handler preserves the rooms-are-nonempty invariant. -/
theorem roomsNonempty_stepState (st : ServerState) (a : Action)
    (h : RoomsNonempty st) : RoomsNonempty (stepState st a) := by
  cases a with
  | aExists roomId =>
    intro rid r hr
    simp only [stepState, roomExists] at hr
    split at hr
    · exact h rid r hr
    · split at hr <;> exact h rid r hr
  | aCreate me roomId password now =>
    intro rid r hr
    simp only [stepState, roomCreate] at hr
    split at hr
    · exact h rid r hr
    · split at hr
      · exact h rid r hr
      · rw [mfind_mput] at hr
        split at hr
        · cases hr; simp
        · exact h rid r hr
  | aJoin me roomId password now =>
    intro rid r hr
    simp only [stepState, roomJoin] at hr
    split at hr
    · exact h rid r hr
    · split at hr
      · exact h rid r hr
      · split at hr
        · exact h rid r hr
        · split at hr
          · exact h rid r hr
          · rw [mfind_mput] at hr
            split at hr
            · cases hr; exact sadd_ne_nil _ _
            · exact h rid r hr
  | aInvite me roomId peerId inviteId now =>
    intro rid r hr
    simp only [stepState, roomInvite] at hr
    split at hr
    · exact h rid r hr
    · split at hr
      · exact h rid r hr
      · split at hr
        · exact h rid r hr
        · split at hr
          · exact h rid r hr
          · split at hr <;> exact h rid r hr
  | aAccept me inviteId now =>
    intro rid r hr
    simp only [stepState, roomAccept] at hr
    split at hr
    · exact h rid r hr
    · split at hr
      · exact h rid r hr
      · split at hr
        · exact h rid r hr
        · split at hr
          · rw [mfind_mput] at hr
            split at hr
            · cases hr; exact sadd_ne_nil _ _
            · exact h rid r hr
          · exact h rid r hr
  | aReject me inviteId now =>
    intro rid r hr
    simp only [stepState, roomReject] at hr
    split at hr
    · exact h rid r hr
    · split at hr <;> exact h rid r hr
  | aLeave me roomId now =>
    intro rid r hr
    simp only [stepState, roomLeave] at hr
    split at hr
    · exact h rid r hr
    · split at hr
      · exact h rid r hr
      · split at hr
        · split at hr
          · rw [mfind_mdel] at hr
            split at hr
            · cases hr
            · exact h rid r hr
          · rename_i hlen
            rw [mfind_mput] at hr
            split at hr
            · cases hr
              intro hnil
              exact hlen (by rw [List.length_eq_zero]; exact hnil)
            · exact h rid r hr
        · exact h rid r hr
  | aSend me roomId text msgId now =>
    intro rid r hr
    simp only [stepState, roomSend] at hr
    split at hr
    · exact h rid r hr
    · split at hr
      · exact h rid r hr
      · split at hr <;> exact h rid r hr
  | aRegister raw sid =>
    intro rid r hr
    simp only [stepState, register] at hr
    split at hr
    · exact h rid r hr
    · split at hr
      · exact h rid r hr
      · split at hr
        · split at hr <;> exact h rid r hr
        · exact h rid r hr
  | aDisconnect me sid now =>
    intro rid r hr
    simp only [stepState, disconnect] at hr
    exact roomsNonempty_disconnectRooms me now _ st.rooms h rid r hr

/-- Running any event sequence preserves the rooms-are-nonempty invariant. -/
theorem roomsNonempty_runActs :
    ∀ (as : List Action) (st : ServerState),
      RoomsNonempty st → RoomsNonempty (runActs st as) := by
  intro as
  induction as with
  | nil => intro st h; simpa [runActs] using h
  | cons a rest ih =>
    intro st h
    simp only [runActs]
    exact ih _ (roomsNonempty_stepState st a h)

/-- Claim C2: for every room R, R is present in the room store iff its membership
set is non-empty; any operation that removes the last member (explicit leave
or disconnect cascade) deletes R in the same logical step, so no reachable
state contains a room with an empty membership set.  (The spec direction
"non-empty implies present" is vacuous for rooms outside the store; the
content is that every stored room of every reachable state has non-empty
members, proved by induction over all ten event handlers.) -/
theorem rooms_exist_iff_nonempty (st : ServerState) (h : Reachable st) :
    ∀ rid r, mfind st.rooms rid = some r → r.members ≠ [] := by
  obtain ⟨as, rfl⟩ := h
  refine roomsNonempty_runActs as init ?_
  intro rid r hr
  cases hr

/-- Witness for C2 at a concrete reachable state: after alice creates "r1",
the stored room has the non-empty member list ["alice"]. -/
theorem rooms_exist_iff_nonempty_witness :
    (⟨["alice"], none⟩ : RoomData).members ≠ [] :=
  rooms_exist_iff_nonempty
    (runActs init [Action.aRegister "alice" 1, Action.aCreate "alice" "r1" none 0])
    ⟨_, rfl⟩ "r1" ⟨["alice"], none⟩ (by decide)

/-- Claim C1 (code bug): the membership-index biconditional
`identity ∈ room.members ⇔ room ∈ membershipIndex[identity]` is NOT preserved
by `room:join`: after bob joins "r1" via `room:join`, bob is in the room's
member set but `userRooms` has no entry for bob at all (the handler at lines
100-124 of `server.js` never calls `getUserRooms(me).add(roomId)`, unlike
create, accept, leave and disconnect). -/
theorem join_breaks_membership_index :
    mfind stJoined.rooms "r1" = some ⟨["alice", "bob"], none⟩ ∧
    "bob" ∈ (["alice", "bob"] : List String) ∧
    mfind stJoined.userRooms "bob" = none := by decide

/-- Claim C8 (code bug, same root cause as C1): bob joined "r1" via `room:join` and
then disconnected; the disconnect cascade iterates only over bob's (empty)
`userRooms` entry, so bob is NOT removed from "r1"'s member set and no
"left (disconnected)" notice is broadcast, even though his registry slot,
index entry, and pending invite "i9" (where he is proposer) are all cleaned
up. -/
theorem disconnect_misses_joined_room :
    mfind (disconnect stPreDisc "bob" 2 3).1.rooms "r1"
        = some ⟨["alice", "bob"], none⟩ ∧
    (disconnect stPreDisc "bob" 2 3).2 = [] ∧
    mfind (disconnect stPreDisc "bob" 2 3).1.online "bob" = none ∧
    mfind (disconnect stPreDisc "bob" 2 3).1.userRooms "bob" = none ∧
    mfind (disconnect stPreDisc "bob" 2 3).1.invites "i9" = none := by decide

/-- Claim C3 counterexample: after bob accepts invite "i1" (which consumes the
token), a second `room:reject` on the very same token acknowledges plain `ok`
— it does not fail with INVITE_NOT_FOUND as the claim states (the reject
handler at lines 205-218 acks `ok` unconditionally). -/
theorem invite_second_reject_acks_ok :
    mfind stAccepted.invites "i1" = none ∧
    (roomReject stAccepted "bob" "i1" 3).ack = Ack.okUnit ∧
    (roomReject stAccepted "bob" "i1" 3).ack ≠ Ack.err "INVITE_NOT_FOUND" := by decide

/-- Claim C5 counterexample: "r1" is unlocked (`pass = null`) and bob is not a
member, yet a join supplying the non-empty password "wrong-pass" succeeds —
the claim that a join of an unlocked room succeeds only when the supplied
password is empty or missing is false (the check at line 112 of `server.js`
short-circuits on a falsy `r.pass` and never inspects the supplied
password). -/
theorem unlocked_join_ignores_password :
    mfind stUnlocked.rooms "r1" = some ⟨["alice"], none⟩ ∧
    (roomJoin stUnlocked "bob" "r1" (some "wrong-pass") 1).ack
      = Ack.okRoom "r1" ["alice", "bob"] false := by decide

/-- Claim C3 amended: an invite token is single-use — any accept by the target (be
it successful, room-vanished, or party-offline) and any reject by the target
deletes the token; once the token is absent, a second accept fails with
INVITE_NOT_FOUND and a second reject acknowledges plain `ok` as a no-op
(reject never reports INVITE_NOT_FOUND). -/
theorem invite_single_use (st : ServerState) (tok me a b : String) (n m p : Nat) :
    (∀ inv, mfind st.invites tok = some inv → inv.toId = me →
      mfind (roomAccept st me tok n).state.invites tok = none ∧
      mfind (roomReject st me tok m).state.invites tok = none) ∧
    (mfind st.invites tok = none →
      (roomAccept st a tok n).ack = Ack.err "INVITE_NOT_FOUND" ∧
      (roomAccept st a tok n).state = st ∧
      (roomReject st b tok p).ack = Ack.okUnit ∧
      (roomReject st b tok p).state = st) := by
  constructor
  · intro inv hinv hto
    constructor
    · simp only [roomAccept, hinv]
      rw [if_neg (by simp [hto])]
      split
      · simp [mfind_mdel]
      · split
        · simp [mfind_mdel]
        · simp [mfind_mdel]
    · simp only [roomReject, hinv, if_pos hto]
      simp [mfind_mdel]
  · intro hnone
    refine ⟨?_, ?_, ?_, ?_⟩ <;> simp [roomAccept, roomReject, hnone]

/-- Claim C4: the identity registry allows at most one live connection per identity
("ID đang được sử dụng" is the ALREADY_IN_USE error): a registration attempt
for an identity whose recorded socket is still live is refused with that
error and the state is untouched (the connection never enters the
coordinator); and on disconnect the registry slot is released only when it
still points at the disconnecting socket. -/
theorem registry_exclusive (st : ServerState) (raw me : String) (sid sid' : Nat)
    (now : Nat) :
    (raw ≠ "" → mfind st.online (normId raw) = some sid' → sid' ∈ st.live →
      register st raw sid = (st, RegResult.refused "ID đang được sử dụng")) ∧
    (mfind st.online me = some sid →
      mfind (disconnect st me sid now).1.online me = none) ∧
    (mfind st.online me = some sid' → sid' ≠ sid →
      (disconnect st me sid now).1.online = st.online) := by
  refine ⟨?_, ?_, ?_⟩
  · intro hraw hfind hlive
    simp [register, hraw, hfind, hlive]
  · intro hfind
    simp [disconnect, hfind, mfind_mdel]
  · intro hfind hne
    simp [disconnect, hfind, hne]

/-- Claim C5 amended: when the target room is unlocked (`pass = null`) a join by a
non-member succeeds regardless of the supplied password — the password is
never examined; when the room is locked the check is exact string equality of
`String(password || "")` against the stored password. -/
theorem join_password_semantics (st : ServerState) (me roomId : String)
    (pw pw' : Option String) (now : Nat) (r : RoomData)
    (h0 : roomId ≠ "") (hn : normId roomId = roomId)
    (hr : mfind st.rooms roomId = some r) (hm : me ∉ r.members) :
    (r.pass = none →
      roomJoin st me roomId pw now = roomJoin st me roomId pw' now ∧
      (roomJoin st me roomId pw now).ack = Ack.okRoom roomId (sadd r.members me) false) ∧
    (∀ q, r.pass = some q → q ≠ "" →
      ((roomJoin st me roomId pw now).ack = Ack.err "WRONG_PASSWORD" ↔ strOr pw ≠ q) ∧
      (strOr pw = q →
        (roomJoin st me roomId pw now).ack
          = Ack.okRoom roomId (sadd r.members me) true)) := by
  constructor
  · intro hpass
    constructor
    · simp [roomJoin, h0, hn, hr, hm, hpass, truthyOpt]
    · simp [roomJoin, h0, hn, hr, hm, hpass, truthyOpt]
  · intro q hpass hq
    constructor
    · by_cases hw : strOr pw = q
      · simp [roomJoin, h0, hn, hr, hm, hpass, truthyOpt, hq, hw]
      · simp [roomJoin, h0, hn, hr, hm, hpass, truthyOpt, hq, hw]
    · intro hw
      simp [roomJoin, h0, hn, hr, hm, hpass, truthyOpt, hq, hw]

/-- Claim C6: the handler `room:join` checks room existence first (ROOM_NOT_FOUND), then current
membership: a caller who is already a member always gets ALREADY_IN_ROOM with
no state change, for every supplied password — the password check is only
reached afterwards. -/
theorem join_membership_before_password (st : ServerState) (me roomId : String)
    (pw : Option String) (now : Nat)
    (h0 : roomId ≠ "") (hn : normId roomId = roomId) :
    (mfind st.rooms roomId = none →
      roomJoin st me roomId pw now = ⟨st, Ack.err "ROOM_NOT_FOUND", []⟩) ∧
    (∀ r, mfind st.rooms roomId = some r → me ∈ r.members →
      roomJoin st me roomId pw now = ⟨st, Ack.err "ALREADY_IN_ROOM", []⟩) := by
  constructor
  · intro hnone
    simp [roomJoin, h0, hn, hnone]
  · intro r hr hm
    simp [roomJoin, h0, hn, hr, hm]

/-- Claim C7: accepting a pending invite as its target: if the room has vanished the
invite is deleted and ROOM_NOT_FOUND returned with no other state change; if
either party is offline the invite is deleted and an offline error returned
with no other state change; on success both proposer and target are members
of the room afterwards (idempotently — `sadd` ignores re-insertion), the
invite is consumed, and the ack carries the updated member list. -/
theorem accept_invite_behavior (st : ServerState) (me tok : String) (now : Nat)
    (inv : Invite) (hinv : mfind st.invites tok = some inv) (hme : inv.toId = me) :
    (mfind st.rooms inv.roomId = none →
      roomAccept st me tok now
        = ⟨{ st with invites := mdel st.invites tok }, Ack.err "ROOM_NOT_FOUND", []⟩) ∧
    (∀ r, mfind st.rooms inv.roomId = some r →
      (mfind st.online inv.fromId = none ∨ mfind st.online inv.toId = none) →
      roomAccept st me tok now
        = ⟨{ st with invites := mdel st.invites tok },
            Ack.err "Một trong hai bên đã offline", []⟩) ∧
    (∀ r fs ts, mfind st.rooms inv.roomId = some r →
      mfind st.online inv.fromId = some fs → mfind st.online inv.toId = some ts →
      mfind (roomAccept st me tok now).state.rooms inv.roomId
          = some ⟨sadd (sadd r.members inv.fromId) inv.toId, r.pass⟩ ∧
      inv.fromId ∈ sadd (sadd r.members inv.fromId) inv.toId ∧
      inv.toId ∈ sadd (sadd r.members inv.fromId) inv.toId ∧
      mfind (roomAccept st me tok now).state.invites tok = none ∧
      (roomAccept st me tok now).ack
          = Ack.okRoom inv.roomId (sadd (sadd r.members inv.fromId) inv.toId)
              (truthyOpt r.pass)) := by
  subst hme
  refine ⟨?_, ?_, ?_⟩
  · intro hroom
    simp [roomAccept, hinv, hroom]
  · intro r hroom hoff
    rcases hoff with hoff | hoff
    · simp [roomAccept, hinv, hroom, hoff]
    · rcases hF : mfind st.online inv.fromId with _ | fs <;>
        simp [roomAccept, hinv, hroom, hoff, hF]
  · intro r fs ts hroom hfrom hto
    refine ⟨?_, ?_, ?_, ?_, ?_⟩
    · simp [roomAccept, hinv, hroom, hfrom, hto, mfind_mput]
    · simp [mem_sadd]
    · simp [mem_sadd]
    · simp [roomAccept, hinv, hroom, hfrom, hto, mfind_mdel]
    · simp [roomAccept, hinv, hroom, hfrom, hto]

/-- Claim C9: a send with non-empty room id and text by a current member succeeds
with the fresh message id and broadcasts a message whose text is the input
truncated to at most 4000 units — exactly 4000 when the input is longer —
while a non-member gets the not-a-member error ("Bạn không ở trong phòng"). -/
theorem send_member_truncates (st : ServerState) (me roomId text msgId : String)
    (now : Nat) (r : RoomData)
    (h0 : roomId ≠ "") (h1 : text ≠ "") (hr : mfind st.rooms roomId = some r) :
    (me ∈ r.members →
      roomSend st me roomId text msgId now
        = ⟨st, Ack.okMsg msgId,
            [OutEvent.message roomId ⟨msgId, roomId, me, jsSlice text 4000, now⟩]⟩ ∧
      (jsSlice text 4000).length ≤ 4000 ∧
      (4000 < text.length → (jsSlice text 4000).length = 4000)) ∧
    (me ∉ r.members →
      (roomSend st me roomId text msgId now).ack
        = Ack.err "Bạn không ở trong phòng") := by
  constructor
  · intro hm
    refine ⟨by simp [roomSend, h0, h1, hr, hm], ?_, ?_⟩
    · show (text.data.take 4000).length ≤ 4000
      rw [List.length_take]
      omega
    · intro hlen
      have hlen' : 4000 < text.data.length := hlen
      show (text.data.take 4000).length = 4000
      rw [List.length_take]
      omega
  · intro hm
    simp [roomSend, h0, h1, hr, hm]

/-- Claim C10: creating a room with a falsy password (missing field or the empty
string) stores it unlocked (`pass = null`): the create ack and `room:exists`
both report `locked: false`, and a subsequent join of the room never examines
the supplied password — in particular every join by a non-member succeeds
whatever password is supplied. -/
theorem create_falsy_password_unlocked (st : ServerState) (me roomId : String)
    (password : Option String) (now : Nat)
    (h0 : roomId ≠ "") (hn : normId roomId = roomId) (ht : jsTrim roomId = roomId)
    (hfalsy : truthyOpt password = false)
    (hnew : mfind st.rooms roomId = none) :
    (roomCreate st me roomId password now).ack = Ack.okRoom roomId [me] false ∧
    mfind (roomCreate st me roomId password now).state.rooms roomId
        = some ⟨[me], none⟩ ∧
    (roomExists (roomCreate st me roomId password now).state roomId).ack
        = Ack.okExists true false ∧
    (∀ me2 pw pw' n2,
      roomJoin (roomCreate st me roomId password now).state me2 roomId pw n2 =
        roomJoin (roomCreate st me roomId password now).state me2 roomId pw' n2) ∧
    (∀ me2 pw n2, me2 ≠ me →
      (roomJoin (roomCreate st me roomId password now).state me2 roomId pw n2).ack
        = Ack.okRoom roomId [me, me2] false) := by
  have hstate : mfind (roomCreate st me roomId password now).state.rooms roomId
      = some ⟨[me], none⟩ := by
    simp [roomCreate, h0, hn, hnew, hfalsy, mfind_mput]
  refine ⟨?_, hstate, ?_, ?_, ?_⟩
  · simp [roomCreate, h0, hn, hnew, hfalsy]
    rfl
  · simp [roomExists, h0, ht, hstate, truthyOpt]
  · intro me2 pw pw' n2
    simp [roomJoin, h0, hn, hstate, truthyOpt]
  · intro me2 pw n2 hne
    simp [roomJoin, h0, hn, hstate, truthyOpt, hne, sadd]

/-- Witness for C3's amended theorem: bob's accept at the invited state
consumes token "i1", and at the consumed state a second accept fails with
INVITE_NOT_FOUND. -/
theorem invite_single_use_witness :
    mfind (roomAccept stInvited "bob" "i1" 2).state.invites "i1" = none ∧
    (roomAccept stAccepted "bob" "i1" 3).ack = Ack.err "INVITE_NOT_FOUND" :=
  ⟨((invite_single_use stInvited "i1" "bob" "x" "y" 2 2 3).1
      ⟨"r1", "alice", "bob", 1⟩ (by decide) (by decide)).1,
   ((invite_single_use stAccepted "i1" "z" "bob" "y" 3 3 3).2 (by decide)).1⟩

/-- Witness for C4: with alice registered on socket 1, a fresh registration
attempt for "alice" on socket 2 is refused, and disconnecting socket 1
releases the slot. -/
theorem registry_exclusive_witness :
    register stAlice "alice" 2 = (stAlice, RegResult.refused "ID đang được sử dụng") ∧
    mfind (disconnect stAlice "alice" 1 9).1.online "alice" = none :=
  ⟨(registry_exclusive stAlice "alice" "alice" 2 1 9).1 (by decide) (by decide) (by decide),
   (registry_exclusive stAlice "alice" "alice" 1 1 9).2.1 (by decide)⟩

/-- Witness for C5's amended theorem: bob joins unlocked "r1" successfully
with an arbitrary password, and on locked "r2" a wrong password is exactly
what triggers WRONG_PASSWORD. -/
theorem join_password_semantics_witness :
    (roomJoin stUnlocked "bob" "r1" (some "anything") 1).ack
        = Ack.okRoom "r1" (sadd ["alice"] "bob") false ∧
    ((roomJoin stLocked "bob" "r2" (some "wrong") 1).ack
        = Ack.err "WRONG_PASSWORD" ↔ strOr (some "wrong") ≠ "secret") :=
  ⟨((join_password_semantics stUnlocked "bob" "r1" (some "anything") none 1
      ⟨["alice"], none⟩ (by decide) (by decide) (by decide) (by decide)).1 rfl).2,
   ((join_password_semantics stLocked "bob" "r2" (some "wrong") none 1
      ⟨["alice"], some "secret"⟩ (by decide) (by decide) (by decide) (by decide)).2
      "secret" rfl (by decide)).1⟩

/-- Witness for C6: alice (already a member of "r1") gets ALREADY_IN_ROOM even
though "r1" has no password at all, and a nonexistent room gives
ROOM_NOT_FOUND. -/
theorem join_membership_before_password_witness :
    roomJoin stUnlocked "alice" "r1" (some "pw") 7
      = ⟨stUnlocked, Ack.err "ALREADY_IN_ROOM", []⟩ ∧
    roomJoin stUnlocked "alice" "nope" (some "pw") 7
      = ⟨stUnlocked, Ack.err "ROOM_NOT_FOUND", []⟩ :=
  ⟨(join_membership_before_password stUnlocked "alice" "r1" (some "pw") 7
      (by decide) (by decide)).2 ⟨["alice"], none⟩ (by decide) (by decide),
   (join_membership_before_password stUnlocked "alice" "nope" (some "pw") 7
      (by decide) (by decide)).1 (by decide)⟩

/-- Witness for C7: bob accepts invite "i1" at the invited state — afterwards
the room holds both alice (idempotently re-added) and bob, and the token is
consumed. -/
theorem accept_invite_behavior_witness :
    mfind (roomAccept stInvited "bob" "i1" 2).state.rooms "r1"
        = some ⟨sadd (sadd ["alice"] "alice") "bob", none⟩ ∧
    "bob" ∈ sadd (sadd ["alice"] "alice") "bob" ∧
    mfind (roomAccept stInvited "bob" "i1" 2).state.invites "i1" = none :=
  have h := (accept_invite_behavior stInvited "bob" "i1" 2 ⟨"r1", "alice", "bob", 1⟩
      (by decide) (by decide)).2.2 ⟨["alice"], none⟩ 1 2 (by decide) (by decide) (by decide)
  ⟨h.1, h.2.2.1, h.2.2.2.1⟩

/-- Witness for C9: alice sends a 4001-character text to "r1"; the ack carries
the message id and the broadcast text length is exactly 4000. -/
theorem send_member_truncates_witness :
    (roomSend stUnlocked "alice" "r1" bigText "m1" 9).ack = Ack.okMsg "m1" ∧
    (jsSlice bigText 4000).length = 4000 :=
  have h := (send_member_truncates stUnlocked "alice" "r1" bigText "m1" 9
      ⟨["alice"], none⟩ (by decide) (by decide) (by decide)).1 (by decide)
  ⟨by rw [h.1],
   h.2.2 (by show 4000 < (List.replicate 4001 'a').length
             rw [List.length_replicate]
             omega)⟩

/-- Witness for C10: creating "r9" with the empty-string password yields an
unlocked room, and bob's subsequent join succeeds despite supplying a
password. -/
theorem create_falsy_password_unlocked_witness :
    (roomCreate stAlice "alice" "r9" (some "") 0).ack = Ack.okRoom "r9" ["alice"] false ∧
    (roomJoin (roomCreate stAlice "alice" "r9" (some "") 0).state "bob" "r9"
        (some "pw") 1).ack = Ack.okRoom "r9" ["alice", "bob"] false :=
  have h := create_falsy_password_unlocked stAlice "alice" "r9" (some "") 0
      (by decide) (by decide) (by decide) (by decide) (by decide)
  ⟨h.1, h.2.2.2.2 "bob" (some "pw") 1 (by decide)⟩

end Chat
